import Mathlib

set_option maxRecDepth 100000

/-!
Verification development for the sg-vaccines command-line client
(source files `utils.py`, `models.py`, `main.py`).

The Python code is shallowly embedded:

* `datetime.date`-valued data is a `Date` record of numerals; Python's
  `datetime` objects are restricted to years 1..9999 and raise
  `OverflowError` past `datetime.max`, so every operation that can leave
  that range returns `Option`/`Except` (with `none`/`.error` standing for
  the raised exception).
* `dateutil.relativedelta` addition is embedded by `Date.addMonthsT`
  (calendar months with the day-of-month clamped to the target month's
  length, exactly as `relativedelta` does) followed by day-by-day
  addition `Date.addDaysT`.  Dates only move forward in this code base,
  so checking the range once on each produced date is observably the
  same as Python raising at the first out-of-range intermediate.
* loosely typed JSON / Python values are `PyVal`; a decoded JSON object
  is an association list `List (String × PyVal)` and `dict.pop` is
  `dpop` / `dpopD`, which really removes the consumed entry.
* `requests` never runs here: the HTTP layer is a parameter.  The query
  string an operation would send is returned as an `AvailQuery` record
  and the decoded JSON body of the response is an explicit argument.
-/

/-- A calendar date, mirroring the date part of Python's `datetime`. -/
structure Date where
  year : Nat
  month : Nat
  day : Nat
deriving DecidableEq, Repr

/-- Gregorian leap-year rule used by Python's `calendar`/`datetime`. -/
def isLeap (y : Nat) : Bool :=
  (y % 4 == 0 && y % 100 != 0) || y % 400 == 0

/-- Number of days of month `m` in year `y` (Python `calendar.monthrange`). -/
def daysInMonth (y m : Nat) : Nat :=
  if m = 2 then (if isLeap y then 29 else 28)
  else if m = 4 ∨ m = 6 ∨ m = 9 ∨ m = 11 then 30
  else 31

/-- The date is a well-formed calendar date (ignoring the year 9999 cap). -/
def Date.validCal (d : Date) : Bool :=
  1 ≤ d.year && 1 ≤ d.month && d.month ≤ 12 && 1 ≤ d.day && d.day ≤ daysInMonth d.year d.month

/-- The date is representable as a Python `datetime` (`MINYEAR = 1`, `MAXYEAR = 9999`). -/
def Date.valid (d : Date) : Bool :=
  d.validCal && d.year ≤ 9999

/-- The next calendar day, with standard month/year rollover. -/
def Date.succT (d : Date) : Date :=
  if d.day < daysInMonth d.year d.month then ⟨d.year, d.month, d.day + 1⟩
  else if d.month < 12 then ⟨d.year, d.month + 1, 1⟩
  else ⟨d.year + 1, 1, 1⟩

/-- Add `n` days (the `days=`/`weeks=` part of a `relativedelta`). -/
def Date.addDaysT (d : Date) : Nat → Date
  | 0 => d
  | n + 1 => d.succT.addDaysT n

/-- Add `n` calendar months exactly as `dateutil.relativedelta` does:
the month index advances and the day-of-month is clamped to the length
of the target month. -/
def Date.addMonthsT (d : Date) (n : Nat) : Date :=
  let m0 := d.month - 1 + n
  let y := d.year + m0 / 12
  let m := m0 % 12 + 1
  ⟨y, m, min d.day (daysInMonth y m)⟩

/-- Potential used to bound year growth: `31 * (month index) + day`.
Each `succT` step increases it by at least 1 and at most 4, and
`addMonthsT` by at most `31 * n`. -/
def psi (d : Date) : Nat :=
  372 * d.year + 31 * (d.month - 1) + d.day

/-- Python `strftime('%Y-%m-%d')` on a representable date: four year
digits, a dash, two month digits, a dash, two day digits, zero padded. -/
def fmtDate (d : Date) : String :=
  String.mk [Nat.digitChar (d.year / 1000 % 10), Nat.digitChar (d.year / 100 % 10),
    Nat.digitChar (d.year / 10 % 10), Nat.digitChar (d.year % 10), '-',
    Nat.digitChar (d.month / 10 % 10), Nat.digitChar (d.month % 10), '-',
    Nat.digitChar (d.day / 10 % 10), Nat.digitChar (d.day % 10)]

/-- The string has the shape `YYYY-MM-DD` (ten characters, digits and dashes). -/
def isWellFormedDateString (s : String) : Bool :=
  match s.data with
  | [a, b, c, d, e, f, g, h, i, j] =>
    a.isDigit && b.isDigit && c.isDigit && d.isDigit && e == '-' &&
      f.isDigit && g.isDigit && h == '-' && i.isDigit && j.isDigit
  | _ => false

/-- A timestamp, mirroring Python's `datetime` (date plus time of day). -/
structure DateTime where
  date : Date
  hour : Nat
  minute : Nat
  second : Nat
  microsecond : Nat
deriving DecidableEq, Repr

/-- Adding `relativedelta(hours=8)` to a `datetime`: the hour advances by
eight and rolls over into the next day when it passes 23. -/
def DateTime.addHours8 (t : DateTime) : DateTime :=
  if t.hour + 8 < 24 then { t with hour := t.hour + 8 }
  else { t with date := t.date.succT, hour := t.hour + 8 - 24 }

/-- Value of a decimal digit character. -/
def digitVal (c : Char) : Option Nat :=
  if c.isDigit then some (c.toNat - 48) else none

/-- Two-digit decimal field. -/
def num2 (a b : Char) : Option Nat := do
  pure ((← digitVal a) * 10 + (← digitVal b))

/-- Four-digit decimal field. -/
def num4 (a b c d : Char) : Option Nat := do
  pure ((← digitVal a) * 1000 + (← digitVal b) * 100 + (← digitVal c) * 10 + (← digitVal d))

/-- Six-digit decimal field. -/
def num6 (a b c d e f : Char) : Option Nat := do
  pure ((← digitVal a) * 100000 + (← digitVal b) * 10000 + (← digitVal c) * 1000 +
    (← digitVal d) * 100 + (← digitVal e) * 10 + (← digitVal f))

/-- `datetime.strptime(s, '%Y-%m-%dT%H:%M:%S.%fZ')` restricted to the
fixed-width form `YYYY-MM-DDTHH:MM:SS.ffffffZ` the API emits (the claims
only quantify over that exact format).  `none` models the `ValueError`
raised on a malformed string or out-of-range field (year 0, month 13,
day past the month's end, hour 24, minute or second 60, ...). -/
def parseTs (s : String) : Option DateTime :=
  match s.data with
  | [y1, y2, y3, y4, p1, n1, n2, p2, a1, a2, p3, h1, h2, p4, i1, i2, p5, e1, e2, p6,
      f1, f2, f3, f4, f5, f6, p7] =>
    if p1 = '-' ∧ p2 = '-' ∧ p3 = 'T' ∧ p4 = ':' ∧ p5 = ':' ∧ p6 = '.' ∧ p7 = 'Z' then
      match num4 y1 y2 y3 y4, num2 n1 n2, num2 a1 a2, num2 h1 h2, num2 i1 i2, num2 e1 e2,
          num6 f1 f2 f3 f4 f5 f6 with
      | some y, some mo, some dd, some hh, some mi, some ss, some ff =>
        if 1 ≤ y ∧ 1 ≤ mo ∧ mo ≤ 12 ∧ 1 ≤ dd ∧ dd ≤ daysInMonth y mo ∧
            hh ≤ 23 ∧ mi ≤ 59 ∧ ss ≤ 59 then
          some ⟨⟨y, mo, dd⟩, hh, mi, ss, ff⟩
        else none
      | _, _, _, _, _, _, _ => none
    else none
  | _ => none

/-- Errors the embedded code can raise.  `missingField` is the `KeyError`
of `dict.pop` without default, `unknownVaccineType` the `KeyError` of an
enum lookup, `malformedTimestamp` the `ValueError` of `strptime`,
`overflow` the `OverflowError` past `datetime.max`, `typeError` an
`AttributeError`/`TypeError` on a value of the wrong type. -/
inductive Err
  | missingField (k : String)
  | unknownVaccineType (s : String)
  | malformedTimestamp
  | overflow
  | typeError
deriving DecidableEq, Repr

/-- A loosely typed Python/JSON value as it flows through this code. -/
inductive PyVal
  | str (s : String)
  | num (n : Int)
  | bool (b : Bool)
  | null
  | dt (t : DateTime)
deriving DecidableEq, Repr

deriving instance DecidableEq for Except

/-- Embeds `utils.parse_date`: a string is parsed with
`strptime('%Y-%m-%dT%H:%M:%S.%fZ')` and `relativedelta(hours=8)` is
added ("convert to UTC+8"); any non-string value is returned as-is. -/
def parse_date (v : PyVal) : Except Err PyVal :=
  match v with
  | PyVal.str s =>
    match parseTs s with
    | some t =>
      if (t.addHours8).date.year ≤ 9999 then Except.ok (PyVal.dt t.addHours8)
      else Except.error Err.overflow
    | none => Except.error Err.malformedTimestamp
  | v => Except.ok v

/-- A decoded JSON object: Python `dict` with string keys, in insertion
order (keys are unique in a real response; uniqueness is a hypothesis
where a theorem needs it). -/
abbrev JsonObj := List (String × PyVal)

/-- Python `dict.pop(k)`: the value at `k` together with the dictionary
without that entry; `none` when the key is absent (a `KeyError`). -/
def dpop (k : String) : JsonObj → Option (PyVal × JsonObj)
  | [] => none
  | (k2, v) :: rest =>
    if k2 = k then some (v, rest)
    else (dpop k rest).map fun p => (p.1, (k2, v) :: p.2)

/-- Python `dict.pop(k, default)`: never fails, removes the entry when present. -/
def dpopD (k : String) (dflt : PyVal) (d : JsonObj) : PyVal × JsonObj :=
  match dpop k d with
  | some p => p
  | none => (dflt, d)

/-- Python `dict.pop(k)` with the `KeyError` surfaced as `missingField`. -/
def popReq (k : String) (d : JsonObj) : Except Err (PyVal × JsonObj) :=
  match dpop k d with
  | some p => Except.ok p
  | none => Except.error (Err.missingField k)

/-- The `VaccineType` enumeration of `models.py` (`Pfizer_Comirnaty = 1`,
`Moderna = 2`). -/
inductive VaccineType
  | Pfizer_Comirnaty
  | Moderna
deriving DecidableEq, Repr

/-- Name-indexed enum access `VaccineType[s]`; `none` is the `KeyError`. -/
def vaccineTypeOfName (s : String) : Option VaccineType :=
  if s = "Pfizer_Comirnaty" then some VaccineType.Pfizer_Comirnaty
  else if s = "Moderna" then some VaccineType.Moderna
  else none

/-- Python `s.replace('/', '_')`: every `/` character becomes `_`. -/
def replaceSlash (s : String) : String :=
  String.mk (s.data.map fun c => if c = '/' then '_' else c)

/-- The `Location` record of `models.py` (the `_api` back reference is
irrelevant to the data claims and omitted). -/
structure Location where
  name : PyVal
  hci_code : PyVal
  address : PyVal
  latitude : PyVal
  longitude : PyVal
  earliest_slot : PyVal
  priority : PyVal
  min_interval : PyVal
  max_interval : PyVal
  min_clinic_interval : PyVal
  max_clinic_interval : PyVal
  vaccine_type : VaccineType
deriving DecidableEq, Repr

/-- Embeds `Location.__init__(api, data)`: the sequence of `data.pop`
calls of `models.py` lines 39-50, in source order.  Besides the record it
returns the dictionary as the constructor leaves it (the pops mutate the
caller's `data`).  `data.pop('name')`, `data.pop('hci_code')`,
`data.pop('earliestSlot')` and `data.pop('vaccineType')` have no default
and raise `KeyError` when absent; the other pops default to `None`. -/
def build_location (data0 : JsonObj) : Except Err (Location × JsonObj) := do
  let (nm, d1) ← popReq "name" data0
  let (hc, d2) ← popReq "hci_code" d1
  let (ad, d3) := dpopD "address" PyVal.null d2
  let (la, d4) := dpopD "latitude" PyVal.null d3
  let (lo, d5) := dpopD "longitude" PyVal.null d4
  let (esRaw, d6) ← popReq "earliestSlot" d5
  let es ← parse_date esRaw
  let (pr, d7) := dpopD "priority" PyVal.null d6
  let (mi, d8) := dpopD "minInterval" PyVal.null d7
  let (ma, d9) := dpopD "maxInterval" PyVal.null d8
  let (mci, d10) := dpopD "minClinicInterval" PyVal.null d9
  let (mca, d11) := dpopD "maxClinicInterval" PyVal.null d10
  let (vtRaw, d12) ← popReq "vaccineType" d11
  match vtRaw with
  | PyVal.str s =>
    match vaccineTypeOfName (replaceSlash s) with
    | some vt => Except.ok (⟨nm, hc, ad, la, lo, es, pr, mi, ma, mci, mca, vt⟩, d12)
    | none => Except.error (Err.unknownVaccineType (replaceSlash s))
  | _ => Except.error Err.typeError

/-- The `TimeSlot` record of `models.py` (`_api` omitted as above). -/
structure TimeSlot where
  id : PyVal
  time : PyVal
  has_capacity : PyVal
deriving DecidableEq, Repr

/-- Embeds `TimeSlot.__init__(api, data)`: `data.pop('id', None)`,
`parse_date(data.pop('time', None))`, `data.pop('hasCapacity')` in
source order, returning the record and the mutated dictionary. -/
def build_timeslot (data0 : JsonObj) : Except Err (TimeSlot × JsonObj) := do
  let (i, d1) := dpopD "id" PyVal.null data0
  let (tRaw, d2) := dpopD "time" PyVal.null d1
  let t ← parse_date tRaw
  let (hc, d3) ← popReq "hasCapacity" d2
  Except.ok (⟨i, t, hc⟩, d3)

/-- Embeds `utils.get_dates(first_dose_date=None)`.  `now` stands for
`datetime.now(pytz.timezone('Asia/Singapore'))`, used only when no first
dose date is given.  With no date: `first_boost = relativedelta(days=1)`,
`second_boost = relativedelta(months=3, days=31 - start_dt.day)` (the
day taken from the reference before the boost is added).  With a date:
`relativedelta(weeks=6)` then `relativedelta(weeks=2)`.  `none` is the
`OverflowError` raised when the arithmetic leaves the `datetime` range;
both produced dates are checked, which is observably the Python
behaviour since the dates only move forward. -/
def get_dates (first_dose_date : Option Date) (now : Date) : Option (String × String) :=
  match first_dose_date with
  | none =>
    let start_dt := now
    let st := start_dt.addDaysT 1
    let en := (st.addMonthsT 3).addDaysT (31 - start_dt.day)
    if st.year ≤ 9999 ∧ en.year ≤ 9999 then some (fmtDate st, fmtDate en) else none
  | some d =>
    let st := d.addDaysT 42
    let en := st.addDaysT 14
    if st.year ≤ 9999 ∧ en.year ≤ 9999 then some (fmtDate st, fmtDate en) else none

/-- Embeds `main.get_dates(start_dt=None, first_dose=True)`: the variant
in `main.py` selects the offsets by the explicit `first_dose` flag, not
by whether `start_dt` was supplied. -/
def main_get_dates (start_dt0 : Option Date) (first_dose : Bool) (now : Date) :
    Option (String × String) :=
  let start_dt := start_dt0.getD now
  match first_dose with
  | true =>
    let st := start_dt.addDaysT 1
    let en := (st.addMonthsT 3).addDaysT (31 - start_dt.day)
    if st.year ≤ 9999 ∧ en.year ≤ 9999 then some (fmtDate st, fmtDate en) else none
  | false =>
    let st := start_dt.addDaysT 42
    let en := st.addDaysT 14
    if st.year ≤ 9999 ∧ en.year ≤ 9999 then some (fmtDate st, fmtDate en) else none

/-- Follows the spec's words for the first-dose window: "start =
reference + 1 day; end = start + 3 months, further adjusted by
`(31 - reference.day_of_month)` days", both formatted `YYYY-MM-DD`. -/
def specFirstDoseWindow (ref : Date) : Option (String × String) :=
  let start := ref.addDaysT 1
  let stop := (start.addMonthsT 3).addDaysT (31 - ref.day)
  if start.year ≤ 9999 ∧ stop.year ≤ 9999 then some (fmtDate start, fmtDate stop) else none

/-- Follows the spec's words for the second-dose window: "start =
reference + 6 weeks; end = start + 2 weeks", both formatted `YYYY-MM-DD`. -/
def specSecondDoseWindow (ref : Date) : Option (String × String) :=
  let start := ref.addDaysT 42
  let stop := start.addDaysT 14
  if start.year ≤ 9999 ∧ stop.year ≤ 9999 then some (fmtDate start, fmtDate stop) else none

/-- The query-string parameters substituted into `Routes.AVAILABILITY`
(`.../availability/{hci_code}?startDate={...}&endDate={...}&isFirstAppt={...}`). -/
structure AvailQuery where
  hci_code : String
  start_date : String
  end_date : String
  first_dose : Bool
deriving DecidableEq, Repr

/-- Embeds `API.get_date_slots(hci_code, first_dose_date=None)` of
`models.py`.  The HTTP GET is externalised: the function returns the
query it substitutes into the availability route (note
`first_dose=bool(first_dose_date)`, and a `datetime` is always truthy)
together with the result of rebuilding the decoded response `resp` as
`{k: [TimeSlot(self, x) for x in v] for k, v in r.items()}`. -/
def API.get_date_slots (hci_code : String) (first_dose_date : Option Date) (now : Date)
    (resp : List (String × List JsonObj)) :
    Except Err (AvailQuery × List (String × List TimeSlot)) := do
  match get_dates first_dose_date now with
  | none => Except.error Err.overflow
  | some (s, e) =>
    let q : AvailQuery := ⟨hci_code, s, e, first_dose_date.isSome⟩
    let out ← resp.mapM fun kv => do
      let ts ← kv.2.mapM fun x => do pure (← build_timeslot x).1
      pure (kv.1, ts)
    Except.ok (q, out)

theorem daysInMonth_bounds (y m : Nat) : 28 ≤ daysInMonth y m ∧ daysInMonth y m ≤ 31 := by
  unfold daysInMonth
  split
  · split <;> omega
  · split <;> omega

theorem validCal_iff (d : Date) :
    d.validCal = true ↔
      1 ≤ d.year ∧ 1 ≤ d.month ∧ d.month ≤ 12 ∧ 1 ≤ d.day ∧ d.day ≤ daysInMonth d.year d.month := by
  simp [Date.validCal, Bool.and_eq_true, decide_eq_true_eq, and_assoc]

theorem succT_facts (d : Date) (h : d.validCal = true) :
    d.succT.validCal = true ∧ psi d.succT ≤ psi d + 4 ∧ d.year ≤ d.succT.year := by
  rw [validCal_iff] at h
  have hb := daysInMonth_bounds d.year d.month
  have hb2 := daysInMonth_bounds d.year (d.month + 1)
  have hb3 := daysInMonth_bounds (d.year + 1) 1
  unfold Date.succT
  split
  · exact ⟨by rw [validCal_iff]; dsimp only; omega,
      by unfold psi; dsimp only; omega, by dsimp only; omega⟩
  · split
    · exact ⟨by rw [validCal_iff]; dsimp only; omega,
        by unfold psi; dsimp only; omega, by dsimp only; omega⟩
    · exact ⟨by rw [validCal_iff]; dsimp only; omega,
        by unfold psi; dsimp only; omega, by dsimp only; omega⟩

theorem addDaysT_facts (n : Nat) (d : Date) (h : d.validCal = true) :
    (d.addDaysT n).validCal = true ∧ psi (d.addDaysT n) ≤ psi d + 4 * n ∧
      d.year ≤ (d.addDaysT n).year := by
  induction n generalizing d with
  | zero => exact ⟨h, by simp [Date.addDaysT], by simp [Date.addDaysT]⟩
  | succ m ih =>
    obtain ⟨h1, h2, h3⟩ := succT_facts d h
    obtain ⟨g1, g2, g3⟩ := ih d.succT h1
    exact ⟨g1, by simp only [Date.addDaysT]; omega, by simp only [Date.addDaysT]; omega⟩

theorem addMonthsT_facts (d : Date) (n : Nat) (h : d.validCal = true) :
    (d.addMonthsT n).validCal = true ∧ psi (d.addMonthsT n) ≤ psi d + 31 * n ∧
      d.year ≤ (d.addMonthsT n).year := by
  rw [validCal_iff] at h
  have hb := daysInMonth_bounds (d.year + (d.month - 1 + n) / 12) ((d.month - 1 + n) % 12 + 1)
  have hdm : 12 * ((d.month - 1 + n) / 12) + (d.month - 1 + n) % 12 = d.month - 1 + n := by
    omega
  refine ⟨?_, ?_, ?_⟩
  · rw [validCal_iff]; unfold Date.addMonthsT; dsimp only; omega
  · unfold psi Date.addMonthsT; dsimp only; omega
  · unfold Date.addMonthsT; dsimp only; omega

theorem psi_bounds (d : Date) (h : d.validCal = true) :
    372 * d.year + 1 ≤ psi d ∧ psi d ≤ 372 * d.year + 372 := by
  rw [validCal_iff] at h
  have hb := daysInMonth_bounds d.year d.month
  unfold psi
  omega

theorem digitChar_isDigit (n : Nat) (h : n < 10) : (Nat.digitChar n).isDigit = true := by
  interval_cases n <;> decide

theorem fmtDate_wellFormed (d : Date) : isWellFormedDateString (fmtDate d) = true := by
  have h1 := digitChar_isDigit (d.year / 1000 % 10) (Nat.mod_lt _ (by omega))
  have h2 := digitChar_isDigit (d.year / 100 % 10) (Nat.mod_lt _ (by omega))
  have h3 := digitChar_isDigit (d.year / 10 % 10) (Nat.mod_lt _ (by omega))
  have h4 := digitChar_isDigit (d.year % 10) (Nat.mod_lt _ (by omega))
  have h5 := digitChar_isDigit (d.month / 10 % 10) (Nat.mod_lt _ (by omega))
  have h6 := digitChar_isDigit (d.month % 10) (Nat.mod_lt _ (by omega))
  have h7 := digitChar_isDigit (d.day / 10 % 10) (Nat.mod_lt _ (by omega))
  have h8 := digitChar_isDigit (d.day % 10) (Nat.mod_lt _ (by omega))
  simp [isWellFormedDateString, fmtDate, h1, h2, h3, h4, h5, h6, h7, h8]

theorem firstWindow_facts (ref : Date) (h : ref.validCal = true) (hy : ref.year ≤ 9998) :
    (ref.addDaysT 1).validCal = true ∧ (ref.addDaysT 1).year ≤ 9999 ∧
      (((ref.addDaysT 1).addMonthsT 3).addDaysT (31 - ref.day)).validCal = true ∧
      (((ref.addDaysT 1).addMonthsT 3).addDaysT (31 - ref.day)).year ≤ 9999 := by
  obtain ⟨a1, a2, a3⟩ := addDaysT_facts 1 ref h
  obtain ⟨b1, b2, b3⟩ := addMonthsT_facts (ref.addDaysT 1) 3 a1
  obtain ⟨c1, c2, c3⟩ := addDaysT_facts (31 - ref.day) ((ref.addDaysT 1).addMonthsT 3) b1
  have p0 := psi_bounds ref h
  have p1 := psi_bounds (ref.addDaysT 1) a1
  have p3 := psi_bounds ((((ref.addDaysT 1)).addMonthsT 3).addDaysT (31 - ref.day)) c1
  have hday : 31 - ref.day ≤ 31 := by omega
  exact ⟨a1, by omega, c1, by omega⟩

theorem secondWindow_facts (ref : Date) (h : ref.validCal = true) (hy : ref.year ≤ 9998) :
    (ref.addDaysT 42).validCal = true ∧ (ref.addDaysT 42).year ≤ 9999 ∧
      ((ref.addDaysT 42).addDaysT 14).validCal = true ∧
      ((ref.addDaysT 42).addDaysT 14).year ≤ 9999 := by
  obtain ⟨a1, a2, a3⟩ := addDaysT_facts 42 ref h
  obtain ⟨b1, b2, b3⟩ := addDaysT_facts 14 (ref.addDaysT 42) a1
  have p0 := psi_bounds ref h
  have p1 := psi_bounds (ref.addDaysT 42) a1
  have p2 := psi_bounds ((ref.addDaysT 42).addDaysT 14) b1
  exact ⟨a1, by omega, b1, by omega⟩

theorem dpop_sublist (k : String) :
    ∀ (d d2 : JsonObj) (v : PyVal), dpop k d = some (v, d2) → d2.Sublist d := by
  intro d
  induction d with
  | nil => intro d2 v h; simp [dpop] at h
  | cons hd tl ih =>
    intro d2 v h
    rw [dpop] at h
    split at h
    · simp only [Option.some.injEq, Prod.mk.injEq] at h
      exact h.2 ▸ List.sublist_cons_self hd tl
    · obtain ⟨p, hp, hv, hrest⟩ : ∃ p, dpop k tl = some p ∧ p.1 = v ∧ (hd :: p.2) = d2 := by
        cases hq : dpop k tl with
        | none => rw [hq] at h; simp at h
        | some p => rw [hq] at h; simp only [Option.map_some', Option.some.injEq, Prod.mk.injEq] at h
                    exact ⟨p, rfl, h.1, h.2⟩
      exact hrest ▸ List.Sublist.cons₂ hd (ih p.2 p.1 (by rw [hp]))

theorem dpop_length (k : String) :
    ∀ (d d2 : JsonObj) (v : PyVal), dpop k d = some (v, d2) → d2.length + 1 = d.length := by
  intro d
  induction d with
  | nil => intro d2 v h; simp [dpop] at h
  | cons hd tl ih =>
    intro d2 v h
    rw [dpop] at h
    split at h
    · simp only [Option.some.injEq, Prod.mk.injEq] at h
      simp [← h.2]
    · cases hq : dpop k tl with
      | none => rw [hq] at h; simp at h
      | some p =>
        rw [hq] at h
        simp only [Option.map_some', Option.some.injEq, Prod.mk.injEq] at h
        have := ih p.2 p.1 (by rw [hq])
        simp only [← h.2, List.length_cons]
        omega

theorem dpop_none_iff (k : String) :
    ∀ d : JsonObj, dpop k d = none ↔ ¬ k ∈ d.map Prod.fst := by
  intro d
  induction d with
  | nil => simp [dpop]
  | cons hd tl ih =>
    rw [dpop]
    split
    · rename_i heq
      simp [heq]
    · rename_i hne
      cases hq : dpop k tl with
      | none =>
        rw [hq] at ih
        simp only [true_iff] at ih
        simp only [hq, Option.map_none', List.map_cons, List.mem_cons]
        constructor
        · intro _ hor
          rcases hor with h1 | h2
          · exact hne h1.symm
          · exact ih h2
        · intro _
          trivial
      | some p =>
        have hk : k ∈ tl.map Prod.fst := by
          by_contra hk2
          rw [hq] at ih
          exact absurd (ih.mpr hk2) (by simp)
        simp only [hq, Option.map_some', List.map_cons, List.mem_cons]
        constructor
        · intro habs
          exact absurd habs (by simp)
        · intro hni
          exact absurd (Or.inr hk) hni

theorem dpop_not_mem (k : String) :
    ∀ (d d2 : JsonObj) (v : PyVal), (d.map Prod.fst).Nodup → dpop k d = some (v, d2) →
      ¬ k ∈ d2.map Prod.fst := by
  intro d
  induction d with
  | nil => intro d2 v _ h; simp [dpop] at h
  | cons hd tl ih =>
    intro d2 v hnd h
    simp only [List.map_cons, List.nodup_cons] at hnd
    rw [dpop] at h
    split at h
    · rename_i heq
      simp only [Option.some.injEq, Prod.mk.injEq] at h
      rw [← h.2, ← heq]
      exact hnd.1
    · rename_i hne
      cases hq : dpop k tl with
      | none => rw [hq] at h; simp at h
      | some p =>
        rw [hq] at h
        simp only [Option.map_some', Option.some.injEq, Prod.mk.injEq] at h
        rw [← h.2]
        simp only [List.map_cons, List.mem_cons, not_or]
        exact ⟨fun hk => hne hk.symm, ih p.2 p.1 hnd.2 (by rw [hq])⟩

theorem sublist_not_mem {k : String} {d d2 : JsonObj} (hs : d2.Sublist d)
    (h : ¬ k ∈ d.map Prod.fst) : ¬ k ∈ d2.map Prod.fst :=
  fun hk => h ((hs.map Prod.fst).subset hk)

theorem sublist_nodup {d d2 : JsonObj} (hs : d2.Sublist d)
    (h : (d.map Prod.fst).Nodup) : (d2.map Prod.fst).Nodup :=
  List.Nodup.sublist (hs.map Prod.fst) h

theorem dpopD_facts (k : String) (dflt : PyVal) (d : JsonObj) (hnd : (d.map Prod.fst).Nodup) :
    ((dpopD k dflt d).2).Sublist d ∧ (dpopD k dflt d).2.length ≤ d.length ∧
      ¬ k ∈ ((dpopD k dflt d).2).map Prod.fst := by
  unfold dpopD
  cases hq : dpop k d with
  | none =>
    exact ⟨List.Sublist.refl d, le_refl _, (dpop_none_iff k d).mp hq⟩
  | some p =>
    obtain ⟨v, d2⟩ := p
    dsimp only
    have hlen := dpop_length k d d2 v hq
    exact ⟨dpop_sublist k d d2 v hq, by omega, dpop_not_mem k d d2 v hnd hq⟩

theorem popReq_facts (k : String) (d d2 : JsonObj) (v : PyVal) (hnd : (d.map Prod.fst).Nodup)
    (h : popReq k d = Except.ok (v, d2)) :
    d2.Sublist d ∧ d2.length + 1 = d.length ∧ ¬ k ∈ d2.map Prod.fst := by
  unfold popReq at h
  cases hq : dpop k d with
  | none => rw [hq] at h; exact absurd h (by simp)
  | some p =>
    rw [hq] at h
    simp only [Except.ok.injEq] at h
    rw [h] at hq
    exact ⟨dpop_sublist k d d2 v hq, dpop_length k d d2 v hq, dpop_not_mem k d d2 v hnd hq⟩

/-- C1 (code-bug evidence): `API.get_date_slots` substitutes
`bool(first_dose_date)` for the `isFirstAppt` route parameter, so the
flag is `false` when `first_dose_date` is absent and `true` when one is
supplied — the inversion of the documented behaviour (the docstring of
`utils.get_dates` and the parallel `main.print_details` both pair an
absent first-dose date with a first appointment, and the very same call
computes the first-dose window).  Evaluated at the failing input
`first_dose_date = None` and, for contrast, at a supplied date. -/
theorem C1_isFirstAppt_inverted :
    API.get_date_slots "HCI" none ⟨2021, 6, 4⟩ [] =
      Except.ok (⟨"HCI", "2021-06-05", "2021-10-02", false⟩, []) ∧
    API.get_date_slots "HCI" (some ⟨2021, 6, 4⟩) ⟨2021, 1, 1⟩ [] =
      Except.ok (⟨"HCI", "2021-07-16", "2021-07-30", true⟩, []) :=
  ⟨by decide, by decide⟩

/-- C2: `parse_date` on a string in the exact format
`YYYY-MM-DDTHH:MM:SS.ffffffZ` parses it and returns the parsed timestamp
with 8 hours added unconditionally (the addition itself raises only when
it crosses `datetime.max`); the documented example yields the instant
2021-06-04T18:00:00; and any non-string value is returned unchanged. -/
theorem C2_parse_timestamp :
    (∀ s t, parseTs s = some t →
      parse_date (PyVal.str s) =
        if (t.addHours8).date.year ≤ 9999 then Except.ok (PyVal.dt t.addHours8)
        else Except.error Err.overflow) ∧
    parse_date (PyVal.str "2021-06-04T10:00:00.000000Z") =
      Except.ok (PyVal.dt ⟨⟨2021, 6, 4⟩, 18, 0, 0, 0⟩) ∧
    (∀ v : PyVal, (∀ s, v ≠ PyVal.str s) → parse_date v = Except.ok v) := by
  refine ⟨?_, by decide, ?_⟩
  · intro s t h
    simp [parse_date, h]
  · intro v hv
    cases v with
    | str s => exact absurd rfl (hv s)
    | num n => rfl
    | bool b => rfl
    | null => rfl
    | dt t => rfl

/-- Witness for C2: the first part applied at the documented example
string, and the pass-through part applied at `None`. -/
theorem C2_parse_timestamp_witness :
    (parse_date (PyVal.str "2021-06-04T10:00:00.000000Z") =
      if ((⟨⟨2021, 6, 4⟩, 10, 0, 0, 0⟩ : DateTime).addHours8).date.year ≤ 9999 then
        Except.ok (PyVal.dt (DateTime.addHours8 ⟨⟨2021, 6, 4⟩, 10, 0, 0, 0⟩))
      else Except.error Err.overflow) ∧
    parse_date PyVal.null = Except.ok PyVal.null :=
  ⟨C2_parse_timestamp.1 "2021-06-04T10:00:00.000000Z" ⟨⟨2021, 6, 4⟩, 10, 0, 0, 0⟩ (by decide),
    C2_parse_timestamp.2.2 PyVal.null (fun s h => PyVal.noConfusion h)⟩

/-- C3 counterexample: on exactly
`{"name": "X", "hci_code": "C1", "vaccineType": "Pfizer/Comirnaty"}`
the constructor does not succeed: `data.pop('earliestSlot')`
(`models.py` line 44) has no default and raises `KeyError`. -/
theorem C3_missing_earliestSlot_fails :
    build_location [("name", PyVal.str "X"), ("hci_code", PyVal.str "C1"),
      ("vaccineType", PyVal.str "Pfizer/Comirnaty")] =
      Except.error (Err.missingField "earliestSlot") := by
  decide

/-- C3 (amended): `earliestSlot` and `vaccineType` are popped without a
default as well, so they too are required fields; with them present the
remaining optional fields default to null: the example object extended
with `"earliestSlot": null` yields `vaccine_type = Pfizer_Comirnaty`,
`earliest_slot = null`, `address = null` (and null for every other
optional field), while a missing `name`, `hci_code`, `earliestSlot` or
`vaccineType` fails with the `KeyError` naming that field. -/
theorem C3_required_and_defaults :
    build_location [("name", PyVal.str "X"), ("hci_code", PyVal.str "C1"),
        ("earliestSlot", PyVal.null), ("vaccineType", PyVal.str "Pfizer/Comirnaty")] =
      Except.ok (⟨PyVal.str "X", PyVal.str "C1", PyVal.null, PyVal.null, PyVal.null, PyVal.null,
        PyVal.null, PyVal.null, PyVal.null, PyVal.null, PyVal.null,
        VaccineType.Pfizer_Comirnaty⟩, []) ∧
    build_location [("hci_code", PyVal.str "C1"), ("earliestSlot", PyVal.null),
        ("vaccineType", PyVal.str "Pfizer/Comirnaty")] =
      Except.error (Err.missingField "name") ∧
    build_location [("name", PyVal.str "X"), ("earliestSlot", PyVal.null),
        ("vaccineType", PyVal.str "Pfizer/Comirnaty")] =
      Except.error (Err.missingField "hci_code") ∧
    build_location [("name", PyVal.str "X"), ("hci_code", PyVal.str "C1"),
        ("vaccineType", PyVal.str "Pfizer/Comirnaty")] =
      Except.error (Err.missingField "earliestSlot") ∧
    build_location [("name", PyVal.str "X"), ("hci_code", PyVal.str "C1"),
        ("earliestSlot", PyVal.null)] =
      Except.error (Err.missingField "vaccineType") :=
  ⟨by decide, by decide, by decide, by decide, by decide⟩

/-- C4 counterexample: `main.get_dates` selects the window by its
explicit `first_dose` flag, which defaults to true, so a call that
supplies a prior-dose date but leaves the flag at its default computes
the first-dose window, not the second-dose one. -/
theorem C4_presence_not_second_dose :
    main_get_dates (some ⟨2021, 6, 4⟩) true ⟨2021, 1, 1⟩ = some ("2021-06-05", "2021-10-02") ∧
    specSecondDoseWindow ⟨2021, 6, 4⟩ = some ("2021-07-16", "2021-07-30") ∧
    main_get_dates (some ⟨2021, 6, 4⟩) true ⟨2021, 1, 1⟩ ≠ specSecondDoseWindow ⟨2021, 6, 4⟩ :=
  ⟨by decide, by decide, by decide⟩

/-- C4 (amended): the `utils.get_dates` variant — the one the API client
uses — follows the consistent policy (absence of a prior-dose date
selects the first-dose window, presence the second-dose window), while
the `main.py` variant selects the mode solely by its `first_dose` flag
(default true), independent of whether a date is supplied. -/
theorem C4_default_policy :
    ∀ d now : Date,
      get_dates none now = specFirstDoseWindow now ∧
      get_dates (some d) now = specSecondDoseWindow d ∧
      main_get_dates (some d) true now = specFirstDoseWindow d ∧
      main_get_dates (some d) false now = specSecondDoseWindow d :=
  fun d now => ⟨rfl, rfl, rfl, rfl⟩

/-- C5: for every reference date the first-dose computation agrees with
the spec formula — start = reference + 1 day, end = start + 3 months
plus `(31 - reference.day)` days, both rendered `YYYY-MM-DD` (the
agreement includes the overflow guard at the top of the datetime
range) — in the `utils.py` variant (reference = now) and the `main.py`
variant (reference = supplied date). -/
theorem C5_first_dose_window :
    ∀ D now : Date,
      get_dates none D = specFirstDoseWindow D ∧
      main_get_dates (some D) true now = specFirstDoseWindow D :=
  fun D now => ⟨rfl, rfl⟩

/-- C6: for every first-dose reference date the second-dose computation
agrees with the spec formula — start = reference + 6 weeks, end =
start + 2 weeks, both rendered `YYYY-MM-DD` — in both source variants. -/
theorem C6_second_dose_window :
    ∀ D now : Date,
      get_dates (some D) now = specSecondDoseWindow D ∧
      main_get_dates (some D) false now = specSecondDoseWindow D :=
  fun D now => ⟨rfl, rfl⟩

/-- C7 counterexample: 9999-12-31 is a valid reference date (and a
day-31 date), yet the window computation raises `OverflowError` — the
date arithmetic leaves the `datetime` range — in both variants. -/
theorem C7_overflow_at_datetime_max :
    Date.valid ⟨9999, 12, 31⟩ = true ∧
    get_dates (some ⟨9999, 12, 31⟩) ⟨2021, 1, 1⟩ = none ∧
    get_dates none ⟨9999, 12, 31⟩ = none ∧
    main_get_dates (some ⟨9999, 12, 31⟩) true ⟨2021, 1, 1⟩ = none :=
  ⟨by decide, by decide, by decide, by decide⟩

/-- C7 (amended): for every valid reference date of year at most 9998 —
so for every date at which the window stays inside the `datetime` range,
in particular every day-31 month boundary below the top of the range —
the computation does not raise: the rollover/clamping arithmetic yields
two valid calendar dates and the result is their well-formed
`YYYY-MM-DD` renderings.  (At the very top of the range, e.g.
9999-12-31, it raises `OverflowError` instead.) -/
theorem C7_no_raise_wellformed (first_dose_date : Option Date) (now : Date)
    (h : (first_dose_date.getD now).validCal = true)
    (hy : (first_dose_date.getD now).year ≤ 9998) :
    ∃ ds de : Date, get_dates first_dose_date now = some (fmtDate ds, fmtDate de) ∧
      ds.valid = true ∧ de.valid = true ∧
      isWellFormedDateString (fmtDate ds) = true ∧ isWellFormedDateString (fmtDate de) = true := by
  cases first_dose_date with
  | none =>
    rw [Option.getD_none] at h hy
    obtain ⟨a1, a2, c1, c2⟩ := firstWindow_facts now h hy
    refine ⟨now.addDaysT 1, ((now.addDaysT 1).addMonthsT 3).addDaysT (31 - now.day),
      ?_, ?_, ?_, fmtDate_wellFormed _, fmtDate_wellFormed _⟩
    · simp only [get_dates]
      rw [if_pos ⟨a2, c2⟩]
    · simp [Date.valid, a1, decide_eq_true_eq, a2]
    · simp [Date.valid, c1, decide_eq_true_eq, c2]
  | some d =>
    rw [Option.getD_some] at h hy
    obtain ⟨a1, a2, c1, c2⟩ := secondWindow_facts d h hy
    refine ⟨d.addDaysT 42, (d.addDaysT 42).addDaysT 14,
      ?_, ?_, ?_, fmtDate_wellFormed _, fmtDate_wellFormed _⟩
    · simp only [get_dates]
      rw [if_pos ⟨a2, c2⟩]
    · simp [Date.valid, a1, decide_eq_true_eq, a2]
    · simp [Date.valid, c1, decide_eq_true_eq, c2]

/-- Witness for C7 at the day-31 month boundary 2021-01-31. -/
theorem C7_no_raise_wellformed_witness :
    ∃ ds de : Date, get_dates none ⟨2021, 1, 31⟩ = some (fmtDate ds, fmtDate de) ∧
      ds.valid = true ∧ de.valid = true ∧
      isWellFormedDateString (fmtDate ds) = true ∧ isWellFormedDateString (fmtDate de) = true :=
  C7_no_raise_wellformed none ⟨2021, 1, 31⟩ (by decide) (by decide)

/-- C8: with the other required fields present, `build_location`
normalises the raw `vaccineType` string by replacing every `/` with `_`,
looks the result up in the `VaccineType` enumeration, succeeds carrying
the matched variant when there is one and fails with
`UnknownVaccineType` exactly when the normalised string matches no
variant (the enumeration's variants being `Pfizer_Comirnaty` and
`Moderna`). -/
theorem C8_vaccine_type_lookup (nm hc : PyVal) (s : String) :
    (vaccineTypeOfName (replaceSlash s) = none ↔
      replaceSlash s ≠ "Pfizer_Comirnaty" ∧ replaceSlash s ≠ "Moderna") ∧
    (vaccineTypeOfName (replaceSlash s) = none →
      build_location [("name", nm), ("hci_code", hc), ("earliestSlot", PyVal.null),
        ("vaccineType", PyVal.str s)] = Except.error (Err.unknownVaccineType (replaceSlash s))) ∧
    (∀ vt, vaccineTypeOfName (replaceSlash s) = some vt →
      build_location [("name", nm), ("hci_code", hc), ("earliestSlot", PyVal.null),
        ("vaccineType", PyVal.str s)] =
        Except.ok (⟨nm, hc, PyVal.null, PyVal.null, PyVal.null, PyVal.null, PyVal.null,
          PyVal.null, PyVal.null, PyVal.null, PyVal.null, vt⟩, [])) := by
  refine ⟨?_, ?_, ?_⟩
  · unfold vaccineTypeOfName
    split
    · rename_i h1
      simp [h1]
    · split
      · rename_i h2
        simp [h2]
      · rename_i h1 h2
        simp [h1, h2]
  · intro hvt
    simp only [build_location, popReq, dpop, dpopD, parse_date, bind, Except.bind,
      reduceIte, String.reduceEq, Option.map_some', Option.map_none', hvt]
  · intro vt hvt
    simp only [build_location, popReq, dpop, dpopD, parse_date, bind, Except.bind,
      reduceIte, String.reduceEq, Option.map_some', Option.map_none', hvt]

/-- Witness for C8 at the documented vaccine type string. -/
theorem C8_vaccine_type_lookup_witness :
    build_location [("name", PyVal.str "X"), ("hci_code", PyVal.str "C"),
        ("earliestSlot", PyVal.null), ("vaccineType", PyVal.str "Pfizer/Comirnaty")] =
      Except.ok (⟨PyVal.str "X", PyVal.str "C", PyVal.null, PyVal.null, PyVal.null, PyVal.null,
        PyVal.null, PyVal.null, PyVal.null, PyVal.null, PyVal.null,
        VaccineType.Pfizer_Comirnaty⟩, []) :=
  (C8_vaccine_type_lookup (PyVal.str "X") (PyVal.str "C") "Pfizer/Comirnaty").2.2
    VaccineType.Pfizer_Comirnaty (by decide)

/-- C9: when the availability response is the empty JSON object,
`get_date_slots` returns the empty mapping together with the query it
sent, not an error. -/
theorem C9_empty_response (hci : String) (fdd : Option Date) (now : Date) (s e : String)
    (h : get_dates fdd now = some (s, e)) :
    API.get_date_slots hci fdd now [] = Except.ok (⟨hci, s, e, fdd.isSome⟩, []) := by
  simp only [API.get_date_slots, h]
  rfl

/-- Witness for C9: the empty response with no first-dose date. -/
theorem C9_empty_response_witness :
    API.get_date_slots "X" none ⟨2021, 6, 4⟩ [] =
      Except.ok (⟨"X", "2021-06-05", "2021-10-02", false⟩, []) :=
  C9_empty_response "X" none ⟨2021, 6, 4⟩ "2021-06-05" "2021-10-02" (by decide)

/-- The keys `Location.__init__` pops from its input dictionary, in source order. -/
def locationPopKeys : List String :=
  ["name", "hci_code", "address", "latitude", "longitude", "earliestSlot", "priority",
    "minInterval", "maxInterval", "minClinicInterval", "maxClinicInterval", "vaccineType"]

/-- The keys `TimeSlot.__init__` pops from its input dictionary, in source order. -/
def timeslotPopKeys : List String := ["id", "time", "hasCapacity"]

/-- C10: constructing a `Location` or a `TimeSlot` mutates the raw JSON
mapping it is given — on success every consumed key (the required ones,
and each optional one that was present) is gone from the dictionary the
constructor leaves behind, which is strictly shorter than, and hence
different from, the input. -/
theorem C10_constructors_consume_keys :
    (∀ (d dout : JsonObj) (loc : Location), (d.map Prod.fst).Nodup →
      build_location d = Except.ok (loc, dout) →
      (∀ k ∈ locationPopKeys, ¬ k ∈ dout.map Prod.fst) ∧ dout.length < d.length ∧ dout ≠ d) ∧
    (∀ (d dout : JsonObj) (ts : TimeSlot), (d.map Prod.fst).Nodup →
      build_timeslot d = Except.ok (ts, dout) →
      (∀ k ∈ timeslotPopKeys, ¬ k ∈ dout.map Prod.fst) ∧ dout.length < d.length ∧ dout ≠ d) := by
  constructor
  · intro d dout loc hnd h
    unfold build_location at h
    simp only [bind, Except.bind] at h
    split at h
    · simp at h
    rename_i p1 h1
    split at h
    · simp at h
    rename_i p2 h2
    split at h
    · simp at h
    rename_i p3 h3
    split at h
    · simp at h
    rename_i es h4
    split at h
    · simp at h
    rename_i p4 h5
    split at h
    rotate_left
    · simp at h
    rename_i s h6
    split at h
    rotate_left
    · simp at h
    rename_i vt h7
    simp only [Except.ok.injEq, Prod.mk.injEq] at h
    obtain ⟨hloc, hdout⟩ := h
    subst hdout
    obtain ⟨s1, l1, m1⟩ := popReq_facts "name" d p1.2 p1.1 hnd (by rw [h1])
    have n1 := sublist_nodup s1 hnd
    obtain ⟨s2, l2, m2⟩ := popReq_facts "hci_code" p1.2 p2.2 p2.1 n1 (by rw [h2])
    have n2 := sublist_nodup s2 n1
    obtain ⟨s3, l3, m3⟩ := dpopD_facts "address" PyVal.null p2.2 n2
    have n3 := sublist_nodup s3 n2
    obtain ⟨s4, l4, m4⟩ := dpopD_facts "latitude" PyVal.null _ n3
    have n4 := sublist_nodup s4 n3
    obtain ⟨s5, l5, m5⟩ := dpopD_facts "longitude" PyVal.null _ n4
    have n5 := sublist_nodup s5 n4
    obtain ⟨s6, l6, m6⟩ := popReq_facts "earliestSlot" _ p3.2 p3.1 n5 (by rw [h3])
    have n6 := sublist_nodup s6 n5
    obtain ⟨s7, l7, m7⟩ := dpopD_facts "priority" PyVal.null p3.2 n6
    have n7 := sublist_nodup s7 n6
    obtain ⟨s8, l8, m8⟩ := dpopD_facts "minInterval" PyVal.null _ n7
    have n8 := sublist_nodup s8 n7
    obtain ⟨s9, l9, m9⟩ := dpopD_facts "maxInterval" PyVal.null _ n8
    have n9 := sublist_nodup s9 n8
    obtain ⟨s10, l10, m10⟩ := dpopD_facts "minClinicInterval" PyVal.null _ n9
    have n10 := sublist_nodup s10 n9
    obtain ⟨s11, l11, m11⟩ := dpopD_facts "maxClinicInterval" PyVal.null _ n10
    have n11 := sublist_nodup s11 n10
    obtain ⟨s12, l12, m12⟩ := popReq_facts "vaccineType" _ p4.2 p4.1 n11 (by rw [h5])
    have uA10 := s12.trans s11
    have uA9 := uA10.trans s10
    have uA8 := uA9.trans s9
    have uA7 := uA8.trans s8
    have uP32 := uA7.trans s7
    have uA5 := uP32.trans s6
    have uA4 := uA5.trans s5
    have uA3 := uA4.trans s4
    have uP22 := uA3.trans s3
    have uP12 := uP22.trans s2
    refine ⟨?_, by omega, ?_⟩
    · intro k hk
      simp only [locationPopKeys] at hk
      fin_cases hk
      · exact sublist_not_mem uP12 m1
      · exact sublist_not_mem uP22 m2
      · exact sublist_not_mem uA3 m3
      · exact sublist_not_mem uA4 m4
      · exact sublist_not_mem uA5 m5
      · exact sublist_not_mem uP32 m6
      · exact sublist_not_mem uA7 m7
      · exact sublist_not_mem uA8 m8
      · exact sublist_not_mem uA9 m9
      · exact sublist_not_mem uA10 m10
      · exact sublist_not_mem s12 m11
      · exact m12
    · intro he
      have hlt : p4.2.length < d.length := by omega
      rw [he] at hlt
      exact lt_irrefl _ hlt
  · intro d dout ts hnd h
    unfold build_timeslot at h
    simp only [bind, Except.bind] at h
    split at h
    · simp at h
    rename_i t h1
    split at h
    · simp at h
    rename_i p h2
    simp only [Except.ok.injEq, Prod.mk.injEq] at h
    obtain ⟨hts, hdout⟩ := h
    subst hdout
    obtain ⟨sI, lI, mI⟩ := dpopD_facts "id" PyVal.null d hnd
    have nI := sublist_nodup sI hnd
    obtain ⟨sT, lT, mT⟩ := dpopD_facts "time" PyVal.null _ nI
    have nT := sublist_nodup sT nI
    obtain ⟨sH, lH, mH⟩ := popReq_facts "hasCapacity" _ p.2 p.1 nT (by rw [h2])
    have uI := sH.trans sT
    refine ⟨?_, by omega, ?_⟩
    · intro k hk
      simp only [timeslotPopKeys] at hk
      fin_cases hk
      · exact sublist_not_mem uI mI
      · exact sublist_not_mem sH mT
      · exact mH
    · intro he
      have hlt : p.2.length < d.length := by omega
      rw [he] at hlt
      exact lt_irrefl _ hlt

/-- Witness for C10: a location dictionary with one extra key keeps only
that key after construction, and a minimal timeslot dictionary is
emptied. -/
theorem C10_constructors_consume_keys_witness :
    (¬ "name" ∈ ([("extra", PyVal.null)] : JsonObj).map Prod.fst) ∧
    ([("extra", PyVal.null)] : JsonObj).length <
      ([("name", PyVal.str "X"), ("hci_code", PyVal.str "C"), ("earliestSlot", PyVal.null),
        ("vaccineType", PyVal.str "Moderna"), ("extra", PyVal.null)] : JsonObj).length ∧
    ([("extra", PyVal.null)] : JsonObj) ≠
      [("name", PyVal.str "X"), ("hci_code", PyVal.str "C"), ("earliestSlot", PyVal.null),
        ("vaccineType", PyVal.str "Moderna"), ("extra", PyVal.null)] ∧
    (¬ "hasCapacity" ∈ ([] : JsonObj).map Prod.fst) ∧
    ([] : JsonObj) ≠ [("hasCapacity", PyVal.bool true)] := by
  obtain ⟨hA, hB, hC⟩ := C10_constructors_consume_keys.1
    [("name", PyVal.str "X"), ("hci_code", PyVal.str "C"), ("earliestSlot", PyVal.null),
      ("vaccineType", PyVal.str "Moderna"), ("extra", PyVal.null)]
    [("extra", PyVal.null)]
    ⟨PyVal.str "X", PyVal.str "C", PyVal.null, PyVal.null, PyVal.null, PyVal.null, PyVal.null,
      PyVal.null, PyVal.null, PyVal.null, PyVal.null, VaccineType.Moderna⟩
    (by decide) (by decide)
  obtain ⟨hA2, hB2, hC2⟩ := C10_constructors_consume_keys.2
    [("hasCapacity", PyVal.bool true)] [] ⟨PyVal.null, PyVal.null, PyVal.bool true⟩
    (by decide) (by decide)
  exact ⟨hA "name" (by decide), hB, hC, hA2 "hasCapacity" (by decide), hC2⟩

/-- Witness for C4 at concrete dates. -/
theorem C4_default_policy_witness :
    get_dates none ⟨2021, 6, 4⟩ = specFirstDoseWindow ⟨2021, 6, 4⟩ ∧
    get_dates (some ⟨2021, 6, 4⟩) ⟨2021, 1, 1⟩ = specSecondDoseWindow ⟨2021, 6, 4⟩ :=
  ⟨(C4_default_policy ⟨2021, 6, 4⟩ ⟨2021, 6, 4⟩).1, (C4_default_policy ⟨2021, 6, 4⟩ ⟨2021, 1, 1⟩).2.1⟩

/-- Witness for C5 at the concrete reference date 2021-06-04. -/
theorem C5_first_dose_window_witness :
    get_dates none ⟨2021, 6, 4⟩ = specFirstDoseWindow ⟨2021, 6, 4⟩ ∧
    specFirstDoseWindow ⟨2021, 6, 4⟩ = some ("2021-06-05", "2021-10-02") :=
  ⟨(C5_first_dose_window ⟨2021, 6, 4⟩ ⟨2021, 6, 4⟩).1, by decide⟩

/-- Witness for C6 at the concrete first-dose date 2021-06-04. -/
theorem C6_second_dose_window_witness :
    get_dates (some ⟨2021, 6, 4⟩) ⟨2021, 1, 1⟩ = specSecondDoseWindow ⟨2021, 6, 4⟩ ∧
    specSecondDoseWindow ⟨2021, 6, 4⟩ = some ("2021-07-16", "2021-07-30") :=
  ⟨(C6_second_dose_window ⟨2021, 6, 4⟩ ⟨2021, 1, 1⟩).1, by decide⟩
